import Mathlib

/-!
Verification of the companion-docker supervisor against its specification.

The file embeds, in Lean, the code of:
  * `src/supervisor/supervisor.py` (the `Supervisor` class: enable, disable,
    attach, setversion, top, restart, update_settings, do_maintenance, get_logs);
  * `src/supervisor/utils/dockerhub.py` (`TagFetcher.fetch_versions`);
  * `src/core/services/wifi/wpa_supplicant.py` (`WPASupplicant.send_command`).

The `Service` class (`service.py`) is imported by `supervisor.py` but its file
is not part of the sources at hand; its methods are modelled from the spec
where a claim needs them, and each such definition is marked
`Modelled from the spec:` in its doc comment.

External collaborators (the Docker runtime, the network, the socket) are
passed in as explicit oracles, so all definitions are executable.
-/

namespace Companion

/-- Observed container state, spec section 3. -/
inductive ObservedState where
  | Stopped
  | Starting
  | Running
  | Failed
deriving DecidableEq, Repr

/-- Modelled from the spec: the `Service` record of the missing `service.py`,
with the fields of spec section 3 under the attribute names the supervisor
uses (`enabled`, `starts`, `container`, plus the version tag).
`container = none` means no backing container exists yet. -/
structure Service where
  enabled : Bool
  observed : ObservedState
  starts : Nat
  container : Option Nat
  version : String
deriving DecidableEq, Repr

/-- Modelled from the spec: `Service.update` (the per-service reconcile step of
spec section 4.2, steps 1-4, run by `do_maintenance` as `service.update()`).
The adapter's status answer for this tick is passed in as `status`.
Returns the new record and whether a container start was requested.
Step 5 (the auto-disable) is in `supervisor.py` itself, not here. -/
def Service.updateA (status : ObservedState) (s : Service) : Service × Bool :=
  let s := { s with observed := status }
  if s.enabled then
    match status with
    | .Running => ({ s with starts := 0 }, false)
    | .Stopped => ({ s with starts := s.starts + 1 }, true)
    | .Failed => ({ s with starts := s.starts + 1 }, true)
    | .Starting => (s, false)
  else
    (s, false)

/-- Modelled from the spec: `Service.update`, state part only. -/
def Service.update (status : ObservedState) (s : Service) : Service :=
  (Service.updateA status s).1

/-- Modelled from the spec: `Service.enable` sets the desired state to Enabled. -/
def Service.enable (s : Service) : Service :=
  { s with enabled := true }

/-- Modelled from the spec: `Service.disable` sets the desired state to Disabled. -/
def Service.disable (s : Service) : Service :=
  { s with enabled := false }

/-- Modelled from the spec: `Service.set_version` updates the version tag. -/
def Service.set_version (v : String) (s : Service) : Service :=
  { s with version := v }

/-- The per-service body of the `for` loop in `Supervisor.do_maintenance`:
`service.update()` followed by
`if service.starts > 10 and service.enabled: await self.disable(service_name)`.
(`Supervisor.disable` on a known name calls `Service.disable` and the no-op
`update_settings`.) Returns the new record and whether a start was requested. -/
def maintainServiceA (status : ObservedState) (s : Service) : Service × Bool :=
  let (s, started) := Service.updateA status s
  if s.starts > 10 && s.enabled then ({ s with enabled := false }, started)
  else (s, started)

/-- State part of `maintainServiceA`. -/
def maintainService (status : ObservedState) (s : Service) : Service :=
  (maintainServiceA status s).1

/-- `n` maintenance ticks on one service, the adapter reporting `status`
every tick (as in the spec scenario where the container is always observed
Stopped). -/
def maintainTicks (status : ObservedState) : Nat → Service → Service
  | 0, s => s
  | n + 1, s => maintainTicks status n (maintainService status s)

/-- First-match lookup in an association list (Python `dict` read,
`name in self.services` / `self.services.get(name, None)`). -/
def lookupA {α : Type} : List (String × α) → String → Option α
  | [], _ => none
  | (k, v) :: r, name => if k = name then some v else lookupA r name

/-- Replace the value at the first occurrence of a key (Python
`self.services[name].method()` mutating the stored record). -/
def setA {α : Type} : List (String × α) → String → α → List (String × α)
  | [], _, _ => []
  | (k, v) :: r, name, x =>
      if k = name then (k, x) :: r else (k, v) :: setA r name x

/-- Insert-or-replace for an association list (Python `d[k] = v`). -/
def insertA {α : Type} : List (String × α) → String → α → List (String × α)
  | [], k, x => [(k, x)]
  | (k, v) :: r, name, x =>
      if k = name then (k, x) :: r else (k, v) :: insertA r name x

/-- The `Supervisor` registry state: the `services` dict and the single
`ttyd_session` reference (the bridge process handle, as a pid). -/
structure Registry where
  services : List (String × Service)
  ttyd_session : Option Nat
deriving DecidableEq, Repr

/-- An aiohttp `web.Response` with a status code and a text body. -/
structure Response where
  status : Nat
  text : String
deriving DecidableEq, Repr

/-- `Supervisor.update_settings`: the source's body is only a TODO comment,
so it is a no-op that cannot fail. -/
def update_settings (r : Registry) : Registry := r

/-- `Supervisor.enable`: 404 on an unknown name, otherwise
`services[name].enable()` then `update_settings()` and 200 "ok". -/
def Supervisor.enable (r : Registry) (name : String) : Response × Registry :=
  match lookupA r.services name with
  | none => (⟨404, "Invalid image: " ++ name⟩, r)
  | some s =>
      let r := { r with services := setA r.services name (Service.enable s) }
      (⟨200, "ok"⟩, update_settings r)

/-- `Supervisor.disable`: 404 on an unknown name, otherwise
`services[name].disable()` then `update_settings()` and 200 "ok". -/
def Supervisor.disable (r : Registry) (name : String) : Response × Registry :=
  match lookupA r.services name with
  | none => (⟨404, "Invalid image: " ++ name⟩, r)
  | some s =>
      let r := { r with services := setA r.services name (Service.disable s) }
      (⟨200, "ok"⟩, update_settings r)

/-- `Supervisor.setversion`: 404 on an unknown name, otherwise
`services[name].set_version(version)` and 200 "ok". -/
def Supervisor.setversion (r : Registry) (name version : String) :
    Response × Registry :=
  match lookupA r.services name with
  | none => (⟨404, "Invalid image: " ++ name⟩, r)
  | some s =>
      ((⟨200, "ok"⟩ : Response),
       { r with services := setA r.services name (Service.set_version version s) })

/-- `Supervisor.top`: 404 on an unknown name, otherwise the adapter's
`service.get_top()` payload (`get_top` is in the missing `service.py`;
it is passed as the oracle `getTop`). Returns the registry unchanged. -/
def Supervisor.top (getTop : Service → String) (r : Registry) (name : String) :
    Response × Registry :=
  match lookupA r.services name with
  | none => (⟨404, "Invalid image: " ++ name⟩, r)
  | some s => (⟨200, getTop s⟩, r)

/-- `Supervisor.get_logs`: 404 on an unknown name, otherwise 200 with the
adapter's `service.get_logs()` text (oracle `getLogs`). -/
def Supervisor.get_logs (getLogs : Service → String) (r : Registry)
    (name : String) : Response × Registry :=
  match lookupA r.services name with
  | none => (⟨404, "Invalid image: " ++ name⟩, r)
  | some s => (⟨200, getLogs s⟩, r)

/-- Outcome of `Supervisor.restart` as seen by the caller: the 404
response, the adapter payload passed through `web.json_response`, or an
exception raised by the adapter call and propagated out of the handler. -/
inductive RestartOut where
  | notFound (resp : Response)
  | payload (data : String)
  | raised (err : String)
deriving DecidableEq, Repr

/-- `Supervisor.restart`: `services.get(name)`; 404 if `None`, otherwise
`web.json_response(service.restart())`. `Service.restart` is in the missing
`service.py`; modelled from the spec: it forwards to the Container Runtime
Adapter and returns its payload or errors — passed as the oracle
`adapterRestart`. There is no try/except around the call, so an adapter
error propagates (`raised`). The second component counts how many times the
adapter restart was invoked. -/
def Supervisor.restart (adapterRestart : Service → Except String String)
    (r : Registry) (name : String) : (RestartOut × Registry) × Nat :=
  match lookupA r.services name with
  | none => ((.notFound ⟨404, "Invalid image: " ++ name⟩, r), 0)
  | some s =>
      match adapterRestart s with
      | .ok d => ((.payload d, r), 1)
      | .error e => ((.raised e, r), 1)

/-- The externally visible steps `Supervisor.attach` performs on processes:
`self.ttyd_session.terminate()`, `self.ttyd_session.wait()`,
`time.sleep(0.5)`, and `Popen(ttyd ...)` spawning the new bridge. -/
inductive AttachEv where
  | terminate (pid : Nat)
  | wait (pid : Nat)
  | sleep
  | spawn (pid : Nat) (containerId : Nat)
deriving DecidableEq, Repr

/-- Outcome of `Supervisor.attach`. `invalidState` is the typed usage error
the spec prescribes for a service with no container; the source never
produces it. `crash` is an exception escaping the handler (the
`AttributeError` from `self.services[name].container.id` when `container`
is `None`). -/
inductive AttachOut where
  | notFound (resp : Response)
  | invalidState (resp : Response)
  | crash (msg : String)
  | ok (resp : Response)
deriving DecidableEq, Repr

/-- `Supervisor.attach`: 404 on an unknown name; else, if `ttyd_session` is
not `None`, terminate it, wait on it and sleep 0.5s; then read
`services[name].container.id` (raising if there is no container) and spawn
the new ttyd bridge, storing it in `ttyd_session`. `newPid` is the pid the
OS gives the spawned bridge. Returns the outcome, the registry after the
call, and the ordered process events that occurred. -/
def Supervisor.attach (newPid : Nat) (r : Registry) (name : String) :
    AttachOut × Registry × List AttachEv :=
  match lookupA r.services name with
  | none => (.notFound ⟨404, "Invalid image: " ++ name⟩, r, [])
  | some s =>
      let pre : List AttachEv :=
        match r.ttyd_session with
        | some pid => [.terminate pid, .wait pid, .sleep]
        | none => []
      match s.container with
      | none =>
          (.crash "AttributeError: NoneType object has no attribute id", r, pre)
      | some cid =>
          (.ok ⟨200, "ok"⟩, { r with ttyd_session := some newPid },
           pre ++ [.spawn newPid cid])

/-- Number of live bridge processes after a list of events, starting from
an optional already-live session. A process stops being live once it has
been waited on; `spawn` creates a live process. -/
def liveCount : Option Nat → List AttachEv → Nat
  | s, [] => match s with | some _ => 1 | none => 0
  | s, ev :: r =>
      match ev, s with
      | .wait p, some q => if p = q then liveCount none r else liveCount s r
      | .spawn p _, none => liveCount (some p) r
      | .spawn _ _, some _ => 2
      | _, _ => liveCount s r

/-- True when, at every instant along the event list, at most one bridge
process is live. -/
def atMostOneLive (init : Option Nat) (evs : List AttachEv) : Bool :=
  (List.range (evs.length + 1)).all fun i => liveCount init (evs.take i) ≤ 1

/-- One tick of the `while True` body of `Supervisor.do_maintenance`:

    try:
        for service_name, service in self.services.items():
            service.update()
            if service.starts > 10 and service.enabled:
                await self.disable(service_name)
    except Exception as error:
        print(f"error in do_maintenance: ...")

The try/except wraps the whole `for` loop, so the first exception raised by
a `service.update()` call ends the iteration: services already visited keep
their updated state, the failing one and every later one keep their old
state. `statusOf` is the adapter oracle: the container status it reports
for each service, or the error `service.update()` raises (the adapter
status query is the first thing the update does, so on error the record is
unchanged). Returns the services after the tick, the names that were
reconciled, and the caught exception message if any. -/
def doMaintenanceTick (statusOf : String → Service → Except String ObservedState) :
    List (String × Service) →
    List (String × Service) × List String × Option String
  | [] => ([], [], none)
  | (k, s) :: rest =>
      match statusOf k s with
      | .error e => ((k, s) :: rest, [], some e)
      | .ok st =>
          let s := maintainService st s
          let (rest, done, err) := doMaintenanceTick statusOf rest
          ((k, s) :: rest, k :: done, err)

/-- `TagFetcher` state: the `cache` dict mapping image name to tag list. -/
structure TagFetcher where
  cache : List (String × List String)
deriving DecidableEq, Repr

/-- `TagFetcher.fetch_versions`: return the cached tag list when
`image_name in self.cache`; otherwise default `index_url`, obtain a token
when none is given (`get_token`, one registry request), request the tag
list, store it in the cache and return it. The network is the oracle
`net index_url token image_name`, erroring when the HTTP/JSON path raises.
`getTok` is the `get_token` oracle. The `Nat` counts network requests
made. -/
def fetch_versions
    (getTok : String → Except String String)
    (net : String → String → String → Except String (List String))
    (tf : TagFetcher) (image_name : String)
    (index_url token : Option String) :
    Except String (List String × TagFetcher) × Nat :=
  match lookupA tf.cache image_name with
  | some tags => (.ok (tags, tf), 0)
  | none =>
      let url := match index_url with
        | none => "https://index.docker.io"
        | some u => u
      match token with
      | some t =>
          match net url t image_name with
          | .error e => (.error e, 1)
          | .ok tags =>
              (.ok (tags, ⟨insertA tf.cache image_name tags⟩), 1)
      | none =>
          match getTok image_name with
          | .error e => (.error e, 1)
          | .ok t =>
              match net url t image_name with
              | .error e => (.error e, 2)
              | .ok tags =>
                  (.ok (tags, ⟨insertA tf.cache image_name tags⟩), 2)

/-- Is `b` a UTF-8 continuation byte (0x80..0xBF)? -/
def isCont (b : Nat) : Bool := 128 ≤ b && b ≤ 191

/-- UTF-8 validity of a byte sequence (RFC 3629), deciding whether Python's
`bytes.decode("utf-8")` succeeds or raises `UnicodeDecodeError`. -/
def utf8Valid : List Nat → Bool
  | [] => true
  | b :: r =>
    if b ≤ 127 then utf8Valid r
    else if 194 ≤ b && b ≤ 223 then
      match r with
      | c :: r2 => isCont c && utf8Valid r2
      | [] => false
    else if b = 224 then
      match r with
      | c :: d :: r2 => (160 ≤ c && c ≤ 191) && isCont d && utf8Valid r2
      | _ => false
    else if b = 237 then
      match r with
      | c :: d :: r2 => (128 ≤ c && c ≤ 159) && isCont d && utf8Valid r2
      | _ => false
    else if 225 ≤ b && b ≤ 239 then
      match r with
      | c :: d :: r2 => isCont c && isCont d && utf8Valid r2
      | _ => false
    else if b = 240 then
      match r with
      | c :: d :: e :: r2 =>
          (144 ≤ c && c ≤ 191) && isCont d && isCont e && utf8Valid r2
      | _ => false
    else if 241 ≤ b && b ≤ 243 then
      match r with
      | c :: d :: e :: r2 => isCont c && isCont d && isCont e && utf8Valid r2
      | _ => false
    else if b = 244 then
      match r with
      | c :: d :: e :: r2 =>
          (128 ≤ c && c ≤ 143) && isCont d && isCont e && utf8Valid r2
      | _ => false
    else false

/-- The runtime circumstances of one `WPASupplicant.send_command` call:
whether `self.sock` is set (the `assert`), the outcome of `sock.send`
(`.error` = the exception message), the outcome of `sock.recvfrom`
(`.ok` = the received bytes), and the `str.encode("utf-8")` oracle used for
error messages. `assertMsg`/`decodeMsg` are `str(e)` for the
`AssertionError` and the `UnicodeDecodeError`. -/
structure SendEnv where
  verbose : Bool
  sockPresent : Bool
  sendRes : Except String Unit
  recvRes : Except String (List Nat)
  encode : String → List Nat
  assertMsg : String
  decodeMsg : String

/-- `WPASupplicant.send_command`: two try/except blocks.
First: `assert self.sock; self.sock.send(command.encode("utf-8"))` — any
exception yields `(str(e).encode("utf-8"), False)`.
Second: `data, _ = self.sock.recvfrom(BUFFER_SIZE)`, then, when `verbose`,
`print("<", data.decode("utf-8").strip())` — which raises inside the same
try when `data` is not valid UTF-8 — then `return data, True`; any
exception yields `(str(e).encode("utf-8"), False)`. -/
def send_command (env : SendEnv) (_command : String) : List Nat × Bool :=
  if !env.sockPresent then (env.encode env.assertMsg, false)
  else
    match env.sendRes with
    | .error e => (env.encode e, false)
    | .ok _ =>
        match env.recvRes with
        | .error e => (env.encode e, false)
        | .ok data =>
            if env.verbose && !utf8Valid data then
              (env.encode env.decodeMsg, false)
            else (data, true)

/-- The status an `Except`-valued adapter answer carries, with a default on
error (used only under a hypothesis ruling the error out). -/
def okD : Except String ObservedState → ObservedState
  | .ok st => st
  | .error _ => .Stopped

/-! ### General lemmas about the association-list operations -/

theorem lookupA_setA_self {α : Type} (l : List (String × α)) (k : String)
    (v w : α) (h : lookupA l k = some v) :
    lookupA (setA l k w) k = some w := by
  induction l with
  | nil => simp [lookupA] at h
  | cons p r ih =>
      obtain ⟨pk, pv⟩ := p
      by_cases hk : pk = k
      · subst hk
        simp [lookupA, setA]
      · simp [lookupA, setA, hk] at h ⊢
        exact ih h

theorem setA_setA {α : Type} (l : List (String × α)) (k : String) (v w : α) :
    setA (setA l k v) k w = setA l k w := by
  induction l with
  | nil => simp [setA]
  | cons p r ih =>
      obtain ⟨pk, pv⟩ := p
      by_cases hk : pk = k
      · subst hk
        simp [setA]
      · simp [setA, hk, ih]

theorem setA_id {α : Type} (l : List (String × α)) (k : String) (v : α)
    (h : lookupA l k = some v) : setA l k v = l := by
  induction l with
  | nil => simp [setA]
  | cons p r ih =>
      obtain ⟨pk, pv⟩ := p
      by_cases hk : pk = k
      · subst hk
        simp [lookupA] at h
        simp [setA, h]
      · simp [lookupA, hk] at h
        simp [setA, hk, ih h]

theorem lookupA_insertA_self {α : Type} (l : List (String × α)) (k : String)
    (v : α) : lookupA (insertA l k v) k = some v := by
  induction l with
  | nil => simp [insertA, lookupA]
  | cons p r ih =>
      obtain ⟨pk, pv⟩ := p
      by_cases hk : pk = k
      · subst hk
        simp [insertA, lookupA]
      · simp [insertA, lookupA, hk, ih]

/-! ### General lemmas about maintenance ticks -/

theorem maintainTicks_add (status : ObservedState) (m n : Nat) (s : Service) :
    maintainTicks status (m + n) s =
      maintainTicks status m (maintainTicks status n s) := by
  induction n generalizing s with
  | zero => rfl
  | succ n ih =>
      show maintainTicks status (m + n + 1) s = _
      rw [maintainTicks, maintainTicks, ih]

theorem maintainTicks_fix (status : ObservedState) (s : Service)
    (h : maintainService status s = s) :
    ∀ m, maintainTicks status m s = s := by
  intro m
  induction m with
  | zero => rfl
  | succ m ih => rw [maintainTicks, h, ih]

/-! ### Example fixtures used by witnesses and counterexamples -/

/-- A service with a running container. -/
def svcEx : Service := ⟨true, .Running, 0, some 7, "latest"⟩

/-- An enabled service that has never started a container. -/
def svcNoCont : Service := ⟨true, .Stopped, 0, none, "latest"⟩

/-- A two-service registry with no active ttyd session. -/
def regEx : Registry := ⟨[("core", svcEx), ("bare", svcNoCont)], none⟩

/-- A registry with an active ttyd session (pid 33). -/
def regWithSession : Registry := ⟨[("core", svcEx)], some 33⟩

/-- An adapter status oracle that raises on service "a" and reports Stopped
for every other service. -/
def exOracle : String → Service → Except String ObservedState :=
  fun k _ => if k = "a" then .error "docker status failed" else .ok .Stopped

/-! ### C2: auto-disable after repeated failed starts -/

/-- C2: starting Enabled with counter 0, the adapter always observing
Stopped and every start failing, after 11 maintenance ticks the service is
Disabled with `starts = 11`; on every later tick no start is attempted and
the counter stays at 11. -/
theorem auto_disable_scenario (s0 : Service)
    (h1 : s0.enabled = true) (h2 : s0.starts = 0) :
    (maintainTicks .Stopped 11 s0).enabled = false ∧
    (maintainTicks .Stopped 11 s0).starts = 11 ∧
    ∀ m, (maintainServiceA .Stopped (maintainTicks .Stopped (11 + m) s0)).2
            = false ∧
         (maintainTicks .Stopped (11 + m) s0).starts = 11 := by
  obtain ⟨en, ob, st, co, ve⟩ := s0
  simp only at h1 h2
  subst h1 h2
  have h11 : maintainTicks .Stopped 11 ⟨true, ob, 0, co, ve⟩ =
      ⟨false, .Stopped, 11, co, ve⟩ := by
    simp [maintainTicks, maintainService, maintainServiceA, Service.updateA]
  have hfix : maintainService .Stopped (⟨false, .Stopped, 11, co, ve⟩ : Service)
      = ⟨false, .Stopped, 11, co, ve⟩ := by
    simp [maintainService, maintainServiceA, Service.updateA]
  refine ⟨by rw [h11], by rw [h11], fun m => ?_⟩
  have hm : maintainTicks .Stopped (11 + m) ⟨true, ob, 0, co, ve⟩ =
      ⟨false, .Stopped, 11, co, ve⟩ := by
    rw [Nat.add_comm, maintainTicks_add, h11, maintainTicks_fix _ _ hfix]
  rw [hm]
  constructor
  · simp [maintainServiceA, Service.updateA]
  · rfl

/-- Witness for C2 at the concrete service `svcNoCont`. -/
theorem auto_disable_scenario_witness :
    (maintainTicks .Stopped 11 svcNoCont).enabled = false ∧
    (maintainTicks .Stopped 11 svcNoCont).starts = 11 ∧
    (maintainServiceA .Stopped (maintainTicks .Stopped (11 + 5) svcNoCont)).2
      = false := by
  have h := auto_disable_scenario svcNoCont rfl rfl
  exact ⟨h.1, h.2.1, (h.2.2 5).1⟩

/-! ### C1: fault isolation inside one maintenance tick -/

/-- C1 counterexample: in a tick over services "a" then "b" where the
adapter errors on "a", service "b" is left untouched and reconciled-names
is empty — although reconciling "b" would have changed it. The claim that
every other service is still reconciled in that tick is false. -/
theorem maintenance_error_not_isolated :
    doMaintenanceTick exOracle [("a", svcNoCont), ("b", svcNoCont)] =
      ([("a", svcNoCont), ("b", svcNoCont)], [], some "docker status failed") ∧
    maintainService .Stopped svcNoCont ≠ svcNoCont := by
  constructor
  · rfl
  · decide

/-- C1 amended: the exception from one service's reconciliation is caught
at the level of the whole tick, not per-service: every service strictly
before the failing one (registration order) is reconciled, while the
failing service and every later one keep their previous state for that
tick; the tick still completes, reporting the caught error. -/
theorem maintenance_tick_error_isolation
    (statusOf : String → Service → Except String ObservedState)
    (pre post : List (String × Service)) (k : String) (s : Service)
    (e : String)
    (hpre : ∀ p ∈ pre, ∃ st, statusOf p.1 p.2 = .ok st)
    (hk : statusOf k s = .error e) :
    doMaintenanceTick statusOf (pre ++ (k, s) :: post) =
      (pre.map (fun p => (p.1, maintainService (okD (statusOf p.1 p.2)) p.2))
         ++ (k, s) :: post,
       pre.map Prod.fst, some e) := by
  induction pre with
  | nil => simp [doMaintenanceTick, hk]
  | cons p r ih =>
      obtain ⟨pk, ps⟩ := p
      obtain ⟨st, hst⟩ := hpre ⟨pk, ps⟩ (by simp)
      have ih' := ih (fun q hq => hpre q (by simp [hq]))
      simp only [List.cons_append, doMaintenanceTick, hst, List.map_cons, okD]
      simp [ih', okD]

/-- Witness for the amended C1: with "b" (healthy) registered before "a"
(whose adapter call fails), the tick reconciles "b", skips "a", and
reports the caught error. -/
theorem maintenance_tick_error_isolation_witness :
    doMaintenanceTick exOracle [("b", svcNoCont), ("a", svcNoCont)] =
      ([("b", maintainService .Stopped svcNoCont), ("a", svcNoCont)],
       ["b"], some "docker status failed") := by
  have h := maintenance_tick_error_isolation exOracle [("b", svcNoCont)] []
    "a" svcNoCont "docker status failed"
    (by
      intro p hp
      simp at hp
      subst hp
      exact ⟨.Stopped, rfl⟩)
    rfl
  simpa [okD, exOracle] using h

/-! ### C3: unknown names -/

/-- C3: for a name not in the registry, every name-taking operation
(enable, disable, setversion, restart, attach, top, get_logs) answers 404
NotFound and leaves the registry — the service map, every service record
and the session reference — unchanged. -/
theorem unknown_name_not_found (r : Registry) (name : String)
    (h : lookupA r.services name = none)
    (getTop getLogs : Service → String)
    (adapterRestart : Service → Except String String)
    (newPid : Nat) (version : String) :
    Supervisor.enable r name = (⟨404, "Invalid image: " ++ name⟩, r) ∧
    Supervisor.disable r name = (⟨404, "Invalid image: " ++ name⟩, r) ∧
    Supervisor.setversion r name version
      = (⟨404, "Invalid image: " ++ name⟩, r) ∧
    Supervisor.restart adapterRestart r name
      = ((.notFound ⟨404, "Invalid image: " ++ name⟩, r), 0) ∧
    Supervisor.attach newPid r name
      = (.notFound ⟨404, "Invalid image: " ++ name⟩, r, []) ∧
    Supervisor.top getTop r name = (⟨404, "Invalid image: " ++ name⟩, r) ∧
    Supervisor.get_logs getLogs r name
      = (⟨404, "Invalid image: " ++ name⟩, r) := by
  refine ⟨?_, ?_, ?_, ?_, ?_, ?_, ?_⟩ <;>
    simp [Supervisor.enable, Supervisor.disable, Supervisor.setversion,
      Supervisor.restart, Supervisor.attach, Supervisor.top,
      Supervisor.get_logs, h]

/-- Witness for C3: the name "ghost" is not registered in `regEx`. -/
theorem unknown_name_not_found_witness :
    Supervisor.enable regEx "ghost" = (⟨404, "Invalid image: ghost"⟩, regEx) ∧
    Supervisor.attach 44 regEx "ghost"
      = (.notFound ⟨404, "Invalid image: ghost"⟩, regEx, []) := by
  have h := unknown_name_not_found regEx "ghost" rfl (fun _ => "")
    (fun _ => "") (fun _ => .ok "") 44 "v2"
  exact ⟨h.1, h.2.2.2.2.1⟩

/-! ### C4: attach replaces the active session -/

/-- C4: calling attach on a known service with a container while a session
is active first terminates and waits on the old bridge process, then (after
the 0.5s grace sleep) spawns the new one; along the whole event sequence at
most one bridge process is ever live, and the registry afterwards
references only the new bridge. -/
theorem attach_replaces_session (r : Registry) (name : String) (s : Service)
    (cid newPid oldPid : Nat)
    (hs : lookupA r.services name = some s) (hc : s.container = some cid)
    (hold : r.ttyd_session = some oldPid) :
    Supervisor.attach newPid r name =
      (.ok ⟨200, "ok"⟩, { r with ttyd_session := some newPid },
       [.terminate oldPid, .wait oldPid, .sleep, .spawn newPid cid]) ∧
    atMostOneLive (some oldPid)
      [.terminate oldPid, .wait oldPid, .sleep, .spawn newPid cid]
      = true := by
  constructor
  · simp [Supervisor.attach, hs, hc, hold]
  · simp [atMostOneLive, liveCount, List.range_succ]

/-- Witness for C4: attaching to "core" (container 7) in `regWithSession`
(active session pid 33) with new bridge pid 44. -/
theorem attach_replaces_session_witness :
    Supervisor.attach 44 regWithSession "core" =
      (.ok ⟨200, "ok"⟩, { regWithSession with ttyd_session := some 44 },
       [.terminate 33, .wait 33, .sleep, .spawn 44 7]) ∧
    atMostOneLive (some 33) [.terminate 33, .wait 33, .sleep, .spawn 44 7]
      = true :=
  attach_replaces_session regWithSession "core" svcEx 7 44 33 rfl rfl rfl

/-! ### C5: attach on a service with no container -/

/-- C5 counterexample: attaching to the known service "bare" of `regEx`,
which has no backing container, does not produce any typed error response:
it raises an `AttributeError` that escapes the handler (`crash`), spawning
nothing. -/
theorem attach_no_container_crash_cex :
    Supervisor.attach 44 regEx "bare" =
      (.crash "AttributeError: NoneType object has no attribute id",
       regEx, []) := by
  decide

/-- C5 amended: attach on a known service with no backing container fails
with an unhandled `AttributeError` (an untyped internal error escaping the
handler, not a typed InvalidState response); no bridge process is spawned
and the registry is unchanged. -/
theorem attach_no_container_crashes (r : Registry) (name : String)
    (s : Service) (newPid : Nat)
    (hs : lookupA r.services name = some s) (hc : s.container = none) :
    (Supervisor.attach newPid r name).1 =
      .crash "AttributeError: NoneType object has no attribute id" ∧
    (Supervisor.attach newPid r name).2.1 = r ∧
    ∀ p c, AttachEv.spawn p c ∉ (Supervisor.attach newPid r name).2.2 := by
  refine ⟨?_, ?_, ?_⟩ <;>
    cases hses : r.ttyd_session <;>
      simp [Supervisor.attach, hs, hc, hses]

/-- Witness for the amended C5 at `regEx` / "bare". -/
theorem attach_no_container_crashes_witness :
    (Supervisor.attach 44 regEx "bare").1 =
      .crash "AttributeError: NoneType object has no attribute id" ∧
    (Supervisor.attach 44 regEx "bare").2.1 = regEx :=
  have h := attach_no_container_crashes regEx "bare" svcNoCont 44 rfl rfl
  ⟨h.1, h.2.1⟩

/-! ### C6: enable/disable idempotence -/

/-- C6: for a known service, enable (and disable) is idempotent: the second
of two consecutive calls returns the same success response and leaves the
registry exactly as the first call left it; and enabling an
already-enabled service is a no-op success (registry returned unchanged). -/
theorem enable_disable_idempotent (r : Registry) (name : String) (s : Service)
    (hs : lookupA r.services name = some s) :
    (Supervisor.enable r name).1 = ⟨200, "ok"⟩ ∧
    Supervisor.enable (Supervisor.enable r name).2 name
      = ((⟨200, "ok"⟩ : Response), (Supervisor.enable r name).2) ∧
    (Supervisor.disable r name).1 = ⟨200, "ok"⟩ ∧
    Supervisor.disable (Supervisor.disable r name).2 name
      = ((⟨200, "ok"⟩ : Response), (Supervisor.disable r name).2) ∧
    (s.enabled = true → Supervisor.enable r name = (⟨200, "ok"⟩, r)) := by
  have hen : lookupA (setA r.services name (Service.enable s)) name
      = some (Service.enable s) := lookupA_setA_self _ _ _ _ hs
  have hdi : lookupA (setA r.services name (Service.disable s)) name
      = some (Service.disable s) := lookupA_setA_self _ _ _ _ hs
  have hee : Service.enable (Service.enable s) = Service.enable s := rfl
  have hdd : Service.disable (Service.disable s) = Service.disable s := rfl
  refine ⟨?_, ?_, ?_, ?_, ?_⟩
  · simp [Supervisor.enable, hs]
  · simp only [Supervisor.enable, hs, update_settings, hen, hee, setA_setA]
  · simp [Supervisor.disable, hs]
  · simp only [Supervisor.disable, hs, update_settings, hdi, hdd, setA_setA]
  · intro he
    have : Service.enable s = s := by
      cases s
      simp only at he
      subst he
      rfl
    simp [Supervisor.enable, hs, this, update_settings,
      setA_id r.services name s hs]

/-- Witness for C6 at `regEx` / "core" (already enabled). -/
theorem enable_disable_idempotent_witness :
    (Supervisor.enable regEx "core").1 = ⟨200, "ok"⟩ ∧
    Supervisor.enable regEx "core" = (⟨200, "ok"⟩, regEx) :=
  have h := enable_disable_idempotent regEx "core" svcEx rfl
  ⟨h.1, h.2.2.2.2 rfl⟩

/-! ### C7: persistence failures never reach enable/disable callers -/

/-- C7: for every known service, enable and disable answer 200 "ok"
unconditionally; the settings-persistence step (`update_settings`, an
unimplemented no-op in the source) cannot fail, so no persistence failure
can ever be propagated to the caller. -/
theorem enable_disable_always_succeed (r : Registry) (name : String)
    (s : Service) (hs : lookupA r.services name = some s) :
    (Supervisor.enable r name).1 = ⟨200, "ok"⟩ ∧
    (Supervisor.disable r name).1 = ⟨200, "ok"⟩ ∧
    ∀ r' : Registry, update_settings r' = r' := by
  refine ⟨?_, ?_, fun _ => rfl⟩ <;>
    simp [Supervisor.enable, Supervisor.disable, hs]

/-- Witness for C7 at `regEx` / "bare". -/
theorem enable_disable_always_succeed_witness :
    (Supervisor.enable regEx "bare").1 = ⟨200, "ok"⟩ ∧
    (Supervisor.disable regEx "bare").1 = ⟨200, "ok"⟩ :=
  have h := enable_disable_always_succeed regEx "bare" svcNoCont rfl
  ⟨h.1, h.2.1⟩

/-! ### C8: restart pass-through -/

/-- C8: restart answers 404 NotFound on an unknown name without touching
the adapter (0 calls); on a known name it invokes the adapter exactly once
(no retry) and, on success, hands the adapter's payload to the caller
unchanged, while an adapter error escapes to the caller as a raised
runtime error, not swallowed. The registry is never mutated. -/
theorem restart_contract (r : Registry) (name : String)
    (adapterRestart : Service → Except String String) :
    (lookupA r.services name = none →
      Supervisor.restart adapterRestart r name
        = ((.notFound ⟨404, "Invalid image: " ++ name⟩, r), 0)) ∧
    ∀ s, lookupA r.services name = some s →
      (∀ d, adapterRestart s = .ok d →
        Supervisor.restart adapterRestart r name = ((.payload d, r), 1)) ∧
      (∀ e, adapterRestart s = .error e →
        Supervisor.restart adapterRestart r name = ((.raised e, r), 1)) := by
  constructor
  · intro h
    simp [Supervisor.restart, h]
  · intro s hs
    constructor
    · intro d hd
      simp [Supervisor.restart, hs, hd]
    · intro e he
      simp [Supervisor.restart, hs, he]

/-- Witness for C8: a payload pass-through on "core" and a 404 on a name
`regEx` does not know. -/
theorem restart_contract_witness :
    Supervisor.restart (fun _ => .ok "restarted-payload") regEx "core"
      = ((.payload "restarted-payload", regEx), 1) ∧
    Supervisor.restart (fun _ => .error "docker down") regEx "core"
      = ((.raised "docker down", regEx), 1) ∧
    Supervisor.restart (fun _ => .ok "x") regEx "ghost"
      = ((.notFound ⟨404, "Invalid image: ghost"⟩, regEx), 0) :=
  ⟨((restart_contract regEx "core" (fun _ => .ok "restarted-payload")).2
      svcEx rfl).1 "restarted-payload" rfl,
   ((restart_contract regEx "core" (fun _ => .error "docker down")).2
      svcEx rfl).2 "docker down" rfl,
   (restart_contract regEx "ghost" (fun _ => .ok "x")).1 rfl⟩

/-! ### C9: TagFetcher caching -/

/-- C9: once `fetch_versions` has returned a tag list `T` for an image, any
later `fetch_versions` call for the same image returns exactly `T` and the
same cache, makes zero network requests — whatever `index_url` or `token`
(or even network behavior) the later call is given. -/
theorem fetch_versions_cached
    (getTok : String → Except String String)
    (net : String → String → String → Except String (List String))
    (tf : TagFetcher) (image_name : String) (u1 t1 : Option String)
    (T : List String) (tf' : TagFetcher)
    (h : (fetch_versions getTok net tf image_name u1 t1).1 = .ok (T, tf')) :
    ∀ (getTok2 : String → Except String String)
      (net2 : String → String → String → Except String (List String))
      (u2 t2 : Option String),
      fetch_versions getTok2 net2 tf' image_name u2 t2 = (.ok (T, tf'), 0) := by
  have hcache : lookupA tf'.cache image_name = some T := by
    revert h
    unfold fetch_versions
    cases hl : lookupA tf.cache image_name with
    | some tags =>
        intro h
        simp at h
        obtain ⟨h1, h2⟩ := h
        subst h1 h2
        exact hl
    | none =>
        cases t1 with
        | some t =>
            cases hn : net (match u1 with
              | none => "https://index.docker.io"
              | some u => u) t image_name with
            | error e => intro h; simp [hn] at h
            | ok tags =>
                intro h
                simp [hn] at h
                obtain ⟨h1, h2⟩ := h
                subst h1 h2
                exact lookupA_insertA_self _ _ _
        | none =>
            cases hg : getTok image_name with
            | error e => intro h; simp [hg] at h
            | ok t =>
                cases hn : net (match u1 with
                  | none => "https://index.docker.io"
                  | some u => u) t image_name with
                | error e => intro h; simp [hg, hn] at h
                | ok tags =>
                    intro h
                    simp [hg, hn] at h
                    obtain ⟨h1, h2⟩ := h
                    subst h1 h2
                    exact lookupA_insertA_self _ _ _
  intro getTok2 net2 u2 t2
  unfold fetch_versions
  rw [hcache]

/-- Witness for C9: after a first fetch of "img" fills the cache from the
network, a second call with a different index_url, an explicit token and a
network that now fails still returns the first result with zero requests. -/
theorem fetch_versions_cached_witness :
    fetch_versions (fun _ => .error "auth down")
      (fun _ _ _ => .error "registry down")
      ⟨[("img", ["1.0", "latest"])]⟩ "img"
      (some "https://mirror.example") (some "tok2")
      = (.ok (["1.0", "latest"], ⟨[("img", ["1.0", "latest"])]⟩), 0) :=
  fetch_versions_cached (fun _ => .ok "tok")
    (fun _ _ _ => .ok ["1.0", "latest"])
    ⟨[("img", ["1.0", "latest"])]⟩ "img" none none
    ["1.0", "latest"] ⟨[("img", ["1.0", "latest"])]⟩ rfl
    (fun _ => .error "auth down") (fun _ _ _ => .error "registry down")
    (some "https://mirror.example") (some "tok2")

/-! ### C10: WPASupplicant.send_command totality and result flag -/

/-- A `send_command` run where the socket is set, the send succeeds and the
receive succeeds — but the received reply `[255]` (the byte 0xFF) is not
valid UTF-8, so the verbose `data.decode("utf-8")` raises inside the
second try block. -/
def envBad : SendEnv :=
  { verbose := true
    sockPresent := true
    sendRes := .ok ()
    recvRes := .ok [255]
    encode := fun s => s.length :: []
    assertMsg := "assert self.sock"
    decodeMsg := "utf-8 codec cannot decode byte 0xff" }

/-- C10 counterexample: in `envBad` both the socket send and the receive
succeed, yet `send_command` returns `False` (the verbose decode of the
non-UTF-8 reply raises and is caught by the same except clause), so the
flag is not "True exactly when send and receive succeed". -/
theorem send_command_false_despite_success :
    envBad.sendRes = .ok () ∧ envBad.recvRes = .ok [255] ∧
    envBad.verbose = true ∧
    (send_command envBad "PING").2 = false := by
  refine ⟨rfl, rfl, rfl, ?_⟩
  decide

/-- C10 amended: `send_command` always returns a (bytes, flag) pair without
propagating an exception; the flag is True exactly when the socket is set,
the send succeeds, the receive succeeds and — since printing the reply
verbosely decodes it inside the same try — when verbose is on the received
bytes are valid UTF-8. On True the returned bytes are the received data;
on False they are the UTF-8 encoding of an error message. -/
theorem send_command_characterization (env : SendEnv) (c : String) :
    ((send_command env c).2 = true ↔
      env.sockPresent = true ∧ env.sendRes = .ok () ∧
      ∃ data, env.recvRes = .ok data ∧
        (env.verbose = true → utf8Valid data = true)) ∧
    (∀ data, env.recvRes = .ok data → (send_command env c).2 = true →
      (send_command env c).1 = data) ∧
    ((send_command env c).2 = false →
      ∃ msg, (send_command env c).1 = env.encode msg) := by
  unfold send_command
  cases hp : env.sockPresent with
  | false => simp
  | true =>
      cases hsend : env.sendRes with
      | error e => simp
      | ok u =>
          obtain ⟨⟩ := u
          cases hrecv : env.recvRes with
          | error e => simp
          | ok data =>
              cases hv : env.verbose with
              | false => simp [hv, hrecv]
              | true =>
                  cases hu : utf8Valid data with
                  | false => simp [hv, hrecv, hu]
                  | true => simp [hv, hrecv, hu]

/-- Witness for the amended C10: a successful exchange with an ASCII reply
gives the reply and True; `envBad`'s False result carries an encoded
message. -/
theorem send_command_characterization_witness :
    (send_command { envBad with recvRes := .ok [80, 79, 78, 71] } "PING").2
      = true ∧
    (send_command { envBad with recvRes := .ok [80, 79, 78, 71] } "PING").1
      = [80, 79, 78, 71] ∧
    ∃ msg, (send_command envBad "PING").1 = envBad.encode msg := by
  have h1 := send_command_characterization
    { envBad with recvRes := .ok [80, 79, 78, 71] } "PING"
  have h2 := send_command_characterization envBad "PING"
  refine ⟨?_, ?_, ?_⟩
  · exact h1.1.mpr ⟨rfl, rfl, [80, 79, 78, 71], rfl, fun _ => by decide⟩
  · exact h1.2.1 [80, 79, 78, 71] rfl
      (h1.1.mpr ⟨rfl, rfl, [80, 79, 78, 71], rfl, fun _ => by decide⟩)
  · exact h2.2.2 (by decide)

end Companion
